import Mathlib

/-!
# Verification of the authscale account/session lifecycle engine

A shallow embedding, in Lean 4, of the account/session lifecycle code of the
authscale repository (Express/MongoDB template):

* `src/template/src/models/user-model.js` — the persisted `User` schema
  (including the unique index declared on `email`),
* `src/template/src/services/user-service.js` — `createUser`, `loginUser`,
  `updateUser`, `logoutUser`, `deleteUser`,
* the `authenticate` middleware (auth middleware file),
* `src/template/src/utils/jwt.js` — `verifyAccessToken`,
* `src/template/src/middlewares/error-handler.js` — `errorHandler`,
* `src/template/src/middlewares/validate-request.js` plus the validation
  utilities (`validatePassword`, `validateLength`, `isValidEmail`, ...).

The MongoDB collection is modelled as a list of user records; `findOne` /
`findById` / `findOneAndUpdate` become `List.find?` plus replacement by id;
a document insert enforces the unique index that the schema declares on
`email`.  Asynchronous JavaScript is modelled as plain sequential code
(every service operation runs inside one transaction, so an operation is a
function from the store to a result together with the updated store;
a thrown `Error` becomes an `Except.error` carrying the same fields).
External primitives — bcrypt comparison, jwt signing/verification — are
passed in as explicit function arguments, since the code treats them as
opaque (`comparePassword`, `jwt.verify`).  Email normalisation (the
`lowercase`/`trim` setters on the schema) is not modelled: all email inputs
in the theorems below are already lower-case and trimmed, and no claim
exercises case differences.
-/

namespace AuthScale

/-! ## Message constants (`constants/messages.js`) -/

def MESSAGES_INTERNAL_ERROR : String := "Internal server error"
def MESSAGES_VALIDATION_ERROR : String := "Validation error"
def MESSAGES_USER_EXISTS : String := "User already exists"
def MESSAGES_USER_NOT_FOUND : String := "User not found"
def MESSAGES_INVALID_CREDENTIALS : String := "Invalid email or password"
def MESSAGES_TOKEN_REQUIRED : String := "Authentication token required"
def MESSAGES_TOKEN_INVALID : String := "Invalid or expired token"
def MESSAGES_TOKEN_EXPIRED : String := "Token has expired"

/-! ## Errors

A JavaScript `Error` object as the code builds and inspects it: the
`message`, the optional `statusCode` attached by the services, the `name`
(mongoose/jwt library errors), the numeric driver `code` (11000 for a
duplicate-key error), the first key of `keyPattern` for duplicate-key
errors, and the per-field messages of a mongoose `ValidationError`. -/

structure AppError where
  message : String
  name : String := "Error"
  statusCode : Option Nat := none
  code : Option Nat := none
  keyPatternFirst : Option String := none
  validationMessages : List String := []
deriving DecidableEq

/-! ## The persisted user record (`models/user-model.js`) -/

structure UserRecord where
  id : String
  email : String
  name : String
  password : String
  accessToken : Option String := none
  refreshToken : Option String := none
  isActive : Bool := true
  isUpdated : Bool := false
  isDeleted : Bool := false
  deletedAt : Option Nat := none
  lastUpdatedAt : Option Nat := none
  lastLogin : Option Nat := none
  createdAt : Nat := 0
deriving DecidableEq

/-- The MongoDB `users` collection. -/
abbrev DB := List UserRecord

/-- `findOneAndUpdate` / `document.save` by `_id`: replace the record whose
id matches.  (Record ids are unique in every store we reason about.) -/
def replaceById (db : DB) (i : String) (u : UserRecord) : DB :=
  db.map (fun r => if r.id == i then u else r)

/-- No two records share an `_id` (MongoDB guarantees this for `_id`). -/
def noDupIds : DB → Bool
  | [] => true
  | x :: xs => xs.all (fun r => r.id != x.id) && noDupIds xs

/-! ## Token verification (`utils/jwt.js`)

`jwt.verify` itself is external; its outcome on a given token is either a
decoded payload, a `JsonWebTokenError` (bad signature) or a
`TokenExpiredError` (expiry).  `verifyAccessToken` wraps `jwt.verify` in a
`try`/`catch` that rethrows any failure as a plain
`Error('Invalid or expired access token')`. -/

structure JwtPayload where
  userId : Option String := none
  id : Option String := none
  email : Option String := none
deriving DecidableEq

inductive JwtError where
  | jsonWebTokenError
  | tokenExpiredError
deriving DecidableEq

/-- `verifyAccessToken` (jwt.js lines 21-27): on any `jwt.verify` failure,
throw one fixed error. -/
def verifyAccessToken (verifyOutcome : Except JwtError JwtPayload) :
    Except AppError JwtPayload :=
  match verifyOutcome with
  | .ok decoded => .ok decoded
  | .error _ => .error { message := "Invalid or expired access token" }

/-! ## The `authenticate` middleware -/

/-- JavaScript string truthiness: the empty string is falsy. -/
def truthyStr : Option String → Option String
  | some s => if s = "" then none else some s
  | none => none

/-- `decoded.userId || decoded.id`, followed by the `if (!tokenUserId)`
falsiness check (middleware lines 42-47). -/
def tokenUserIdOf (decoded : JwtPayload) : Option String :=
  match truthyStr decoded.userId with
  | some s => some s
  | none => truthyStr decoded.id

/-- Character-list prefix test (the semantics of
`String.prototype.startsWith`). -/
def isPrefixChars : List Char → List Char → Bool
  | [], _ => true
  | _ :: _, [] => false
  | p :: ps, c :: cs => p == c && isPrefixChars ps cs

/-- Header handling (middleware lines 25-36): require an
`Authorization: Bearer <token>` header with a non-empty token.
`authHeader.startsWith('Bearer ')` and `authHeader.substring(7)` are
rendered on the character list of the header. -/
def extractBearer : Option String → Option String
  | none => none
  | some h =>
    if isPrefixChars "Bearer ".toList h.toList then
      let token := String.mk (h.toList.drop 7)
      if token = "" then none else some token
    else none

/-- Result of the middleware: either the identity attached to the request,
or `sendError(message, statusCode)`. -/
inductive AuthResult where
  | ok (userId : String) (email : String)
  | err (message : String) (statusCode : Nat)
deriving DecidableEq

/-- The `authenticate` middleware.  `verify` is the outcome of
`jwt.verify(token, JWT_SECRET)` per token string.  Status codes 401/403 are
`HTTP_STATUS.UNAUTHORIZED` / `HTTP_STATUS.FORBIDDEN` (the `constants`
file is absent from the tree; the spec's error taxonomy fixes 401/403). -/
def authenticate (db : DB) (authHeader : Option String)
    (verify : String → Except JwtError JwtPayload) : AuthResult :=
  match extractBearer authHeader with
  | none => .err MESSAGES_TOKEN_REQUIRED 401
  | some token =>
    match verifyAccessToken (verify token) with
    | .error e =>
      -- the surrounding catch: sendError(error.message || TOKEN_INVALID, 401)
      .err (if e.message = "" then MESSAGES_TOKEN_INVALID else e.message) 401
    | .ok decoded =>
      match tokenUserIdOf decoded with
      | none => .err MESSAGES_TOKEN_INVALID 401
      | some tokenUserId =>
        match db.find? (fun r => r.id == tokenUserId) with
        | none => .err MESSAGES_TOKEN_INVALID 401
        | some user =>
          if user.id != tokenUserId then .err MESSAGES_TOKEN_INVALID 401
          else if user.isDeleted then .err "User account has been deleted" 401
          else if !user.isActive then .err "User account is deactivated" 403
          else if user.accessToken != some token then
            .err MESSAGES_TOKEN_INVALID 401
          else .ok user.id user.email

/-! ## The user service (`services/user-service.js`)

Each operation runs inside one mongoose transaction: on success it returns
its result together with the updated store, on error the transaction is
aborted, so an `Except.error` leaves the store unchanged (no store is
returned). -/

structure AccountSummary where
  id : String
  email : String
  name : String
  createdAt : Nat
  lastLogin : Option Nat := none
deriving DecidableEq

structure TokenPairResult where
  user : AccountSummary
  accessToken : String
  refreshToken : String
deriving DecidableEq

/-- A document insert, enforcing the unique index that `user-model.js`
declares on `email` (`email: { type: String, ..., unique: true }`,
user-model.js line 9): MongoDB rejects an insert whose `email` equals the
`email` of any stored document — deleted or not — with driver error code
11000. -/
def insertUser (db : DB) (u : UserRecord) : Except AppError DB :=
  if db.any (fun r => r.email == u.email) then
    .error { message := "E11000 duplicate key error collection: users index: email_1 dup key",
             name := "MongoServerError", code := some 11000,
             keyPatternFirst := some "email" }
  else .ok (db ++ [u])

/-- `createUser` (user-service.js lines 11-74).  `hash` is
`hashPassword` (bcrypt, external); `freshId` is the `_id` MongoDB assigns;
`newAccess`/`newRefresh` are the outputs of `generateAccessToken` /
`generateRefreshToken` for this call; `now` is the creation time. -/
def createUser (db : DB) (email name password : String)
    (hash : String → String) (freshId newAccess newRefresh : String)
    (now : Nat) : Except AppError (TokenPairResult × DB) :=
  -- lines 21-27: duplicate check, filtering on the deleted flag
  let existingUser := db.find? (fun r => r.email == email)
  let blocked := match existingUser with
    | some ex => !ex.isDeleted
    | none => false
  if blocked then
    .error { message := MESSAGES_USER_EXISTS, statusCode := some 409 }
  else
    -- lines 30-41: hash, build the record, first save (insert)
    let user : UserRecord :=
      { id := freshId, email := email, name := name,
        password := hash password, isUpdated := false, isDeleted := false,
        createdAt := now }
    match insertUser db user with
    | .error e => .error e
    | .ok dbInserted =>
      -- lines 44-50: generate tokens, second save (update of same doc)
      let user1 := { user with accessToken := some newAccess,
                               refreshToken := some newRefresh }
      .ok ({ user := { id := user.id, email := user.email, name := user.name,
                       createdAt := user.createdAt },
             accessToken := newAccess, refreshToken := newRefresh },
           replaceById dbInserted user.id user1)

/-- `loginUser` (user-service.js lines 77-145).  `cmp` is
`comparePassword` (bcrypt, external); `newAccess`/`newRefresh` are the
fresh token pair generated by this call; `now` is the login time. -/
def loginUser (db : DB) (email password : String)
    (cmp : String → String → Bool) (newAccess newRefresh : String)
    (now : Nat) : Except AppError (TokenPairResult × DB) :=
  match db.find? (fun r => r.email == email && !r.isDeleted) with
  | none => .error { message := MESSAGES_INVALID_CREDENTIALS, statusCode := some 401 }
  | some user =>
    if !user.isActive then
      .error { message := "User account is deactivated", statusCode := some 403 }
    else if !(cmp password user.password) then
      .error { message := MESSAGES_INVALID_CREDENTIALS, statusCode := some 401 }
    else
      let user1 := { user with accessToken := some newAccess,
                               refreshToken := some newRefresh,
                               lastLogin := some now }
      .ok ({ user := { id := user.id, email := user.email, name := user.name,
                       createdAt := user.createdAt, lastLogin := some now },
             accessToken := newAccess, refreshToken := newRefresh },
           replaceById db user.id user1)

/-! ### `updateUser` and its patch

A request body is an arbitrary JSON object; `updateUser` deletes six keys
from it, adds the update-tracking keys, and applies the rest with `$set`
(`runValidators` on, strict mode discards non-schema keys, so only schema
fields can land).  A patch is therefore one optional value per mutable
schema field; `some` means the key is present. -/

structure UpdatePatch where
  password : Option String := none
  email : Option String := none
  name : Option String := none
  accessToken : Option (Option String) := none
  refreshToken : Option (Option String) := none
  isActive : Option Bool := none
  isUpdated : Option Bool := none
  isDeleted : Option Bool := none
  deletedAt : Option (Option Nat) := none
  lastUpdatedAt : Option (Option Nat) := none
  lastLogin : Option (Option Nat) := none
deriving DecidableEq

/-- `$set` semantics: keys present in the patch overwrite the document
field, absent keys leave it unchanged. -/
def applyPatch (r : UserRecord) (p : UpdatePatch) : UserRecord :=
  { r with
    password := p.password.getD r.password,
    email := p.email.getD r.email,
    name := p.name.getD r.name,
    accessToken := p.accessToken.getD r.accessToken,
    refreshToken := p.refreshToken.getD r.refreshToken,
    isActive := p.isActive.getD r.isActive,
    isUpdated := p.isUpdated.getD r.isUpdated,
    isDeleted := p.isDeleted.getD r.isDeleted,
    deletedAt := p.deletedAt.getD r.deletedAt,
    lastUpdatedAt := p.lastUpdatedAt.getD r.lastUpdatedAt,
    lastLogin := p.lastLogin.getD r.lastLogin }

/-- Lines 202-207: `delete updateData.password; ... delete
updateData.deletedAt` — the six sensitive keys are removed
unconditionally. -/
def stripSensitive (p : UpdatePatch) : UpdatePatch :=
  { p with password := none, email := none, accessToken := none,
           refreshToken := none, isDeleted := none, deletedAt := none }

/-- Lines 210-211: `updateData.isUpdated = true;
updateData.lastUpdatedAt = new Date()`. -/
def addUpdateTracking (p : UpdatePatch) (now : Nat) : UpdatePatch :=
  { p with isUpdated := some true, lastUpdatedAt := some (some now) }

/-- The character class `\s` of the JavaScript regexes (also the
whitespace `String.prototype.trim` removes). -/
def jsWhitespace (c : Char) : Bool :=
  c == ' ' || c == '\t' || c == '\n' || c == '\r' ||
    c == Char.ofNat 11 || c == Char.ofNat 12

/-- `String.prototype.trim`, on the character list. -/
def jsTrim (s : String) : String :=
  String.mk (((s.toList.dropWhile jsWhitespace).reverse.dropWhile
    jsWhitespace).reverse)

/-- The schema setters mongoose applies to the `$set` values before
validation: `name` is trimmed (user-model.js `trim: true`).  The
`lowercase`/`trim` setters of `email` are unreachable here — `email` is
removed from every patch. -/
def runSetters (p : UpdatePatch) : UpdatePatch :=
  { p with name := p.name.map jsTrim }

/-- The update validators that `runValidators: true` (user-service.js
line 216) runs on the `$set` document.  Of the schema fields a stripped
patch can still set, only `name` carries validators (user-model.js lines
14-20: required, minlength 2, maxlength 50); the other surviving fields
(`isActive`, `isUpdated`, `lastUpdatedAt`, `lastLogin`) have defaults
only.  Mongoose records one `ValidatorError` per path; `required` fails
on the empty string.  The argument is the setter-applied `name` value. -/
def updateValidatorError : Option String → Option String
  | none => none
  | some t =>
    if t = "" then some "Name is required"
    else if t.length < 2 then some "Name must be at least 2 characters"
    else if 50 < t.length then some "Name cannot exceed 50 characters"
    else none

/-- `updateUser` (user-service.js lines 194-239): strip the sensitive
keys, add tracking, `findOneAndUpdate({_id, isDeleted: false},
{$set: ...}, {new: true, runValidators: true})`.  The update validators
run when the query executes, before any document is matched: an invalid
surviving value throws a mongoose `ValidationError` (the boundary handler
maps it to 400); otherwise 404 when no record matches, else the `$set`
lands and the mutated record is returned. -/
def updateUser (db : DB) (userId : String) (updateData : UpdatePatch)
    (now : Nat) : Except AppError (UserRecord × DB) :=
  match updateValidatorError
      (runSetters (addUpdateTracking (stripSensitive updateData) now)).name with
  | some msg =>
    .error { message := "User validation failed: name: " ++ msg,
             name := "ValidationError", validationMessages := [msg] }
  | none =>
    match db.find? (fun r => r.id == userId && !r.isDeleted) with
    | none =>
      .error { message := MESSAGES_USER_NOT_FOUND, statusCode := some 404 }
    | some user =>
      .ok (applyPatch user
             (runSetters (addUpdateTracking (stripSensitive updateData) now)),
           replaceById db user.id
             (applyPatch user
               (runSetters (addUpdateTracking (stripSensitive updateData) now))))

/-- `logoutUser` (user-service.js lines 242-278):
`findOneAndUpdate({_id, isDeleted: false}, {$set: {accessToken: null,
refreshToken: null}})`; 404 when no record matches; returns nothing, so we
return the updated store. -/
def logoutUser (db : DB) (userId : String) : Except AppError DB :=
  match db.find? (fun r => r.id == userId && !r.isDeleted) with
  | none => .error { message := MESSAGES_USER_NOT_FOUND, statusCode := some 404 }
  | some user =>
    let user1 := { user with accessToken := none, refreshToken := none }
    .ok (replaceById db user.id user1)

structure DeleteResult where
  id : String
  email : String
  name : String
  deletedAt : Option Nat
  message : String := "User account deleted successfully"
deriving DecidableEq

/-- The `$set` document of `deleteUser` (user-service.js lines 291-297). -/
def softDeleteRecord (u : UserRecord) (now : Nat) : UserRecord :=
  { u with isDeleted := true, deletedAt := some now,
           accessToken := none, refreshToken := none, isActive := false }

/-- `deleteUser` (user-service.js lines 281-328):
`findOneAndUpdate({_id, isDeleted: false}, {$set: {isDeleted: true,
deletedAt: now, accessToken: null, refreshToken: null, isActive: false}},
{new: true})`; 404 when no record matches (absent or already deleted). -/
def deleteUser (db : DB) (userId : String) (now : Nat) :
    Except AppError (DeleteResult × DB) :=
  match db.find? (fun r => r.id == userId && !r.isDeleted) with
  | none => .error { message := MESSAGES_USER_NOT_FOUND, statusCode := some 404 }
  | some user =>
    let user1 := softDeleteRecord user now
    .ok ({ id := user1.id, email := user1.email, name := user1.name,
           deletedAt := user1.deletedAt }, replaceById db user.id user1)

/-! ## The boundary error handler (`middlewares/error-handler.js`)

`sendError` (utils/response.js) sends `{status: false, message, errors?}`
with the given status code; the response never carries a stack trace — its
only fields are the flag, the message and the optional error list. -/

structure ErrorResponse where
  statusCode : Nat
  message : String
  errors : Option (List String) := none
deriving DecidableEq

/-- Substring search on character lists. -/
def containsSub (pat : List Char) : List Char → Bool
  | [] => pat.isEmpty
  | c :: rest => isPrefixChars pat (c :: rest) || containsSub pat rest

/-- `String.prototype.includes`. -/
def includesSubstr (s pat : String) : Bool := containsSub pat.toList s.toList

/-- JavaScript truthiness of the optional numeric `statusCode`:
`undefined` and `0` are falsy. -/
def truthyNat : Option Nat → Option Nat
  | some n => if n = 0 then none else some n
  | none => none

/-- `errorHandler` (error-handler.js lines 10-61).  Status code names map
to 403/400/409/401/500 (the `constants/http-status.js` file is absent from
the tree; the spec's error taxonomy fixes these values). -/
def errorHandler (err : AppError) : ErrorResponse :=
  if includesSubstr err.message "CORS" then
    { statusCode := 403, message := "CORS policy violation" }
  else if err.name == "ValidationError" then
    { statusCode := 400, message := MESSAGES_VALIDATION_ERROR,
      errors := some err.validationMessages }
  else if err.name == "CastError" then
    { statusCode := 400, message := "Invalid data format" }
  else if err.code == some 11000 then
    { statusCode := 409,
      message := (err.keyPatternFirst.getD "undefined") ++ " already exists" }
  else if err.name == "JsonWebTokenError" then
    { statusCode := 401, message := MESSAGES_TOKEN_INVALID }
  else if err.name == "TokenExpiredError" then
    { statusCode := 401, message := MESSAGES_TOKEN_EXPIRED }
  else
    match truthyNat err.statusCode with
    | some sc => { statusCode := sc, message := err.message }
    | none =>
      -- default: sendError(err.message || INTERNAL_ERROR, err.statusCode || 500)
      { statusCode := 500,
        message := if err.message = "" then MESSAGES_INTERNAL_ERROR
                   else err.message }

/-! ## Validation utilities (`utils/validation.js`) -/

/-- A JSON value in a request payload; a field lookup that misses is
JavaScript `undefined`, modelled as `none` at the use sites. -/
inductive JsValue where
  | str (s : String)
  | num (n : Int)
  | bool (b : Bool)
  | null
deriving DecidableEq

/-- The result shape `{ valid, message? }` of the validation utilities. -/
structure ValidationResult where
  valid : Bool
  message : String := ""
deriving DecidableEq

/-- The class `[^\s@]` of the email regex. -/
def emailCharOk (c : Char) : Bool := !(jsWhitespace c) && c != '@'

/-- `isValidEmail` (validation.js lines 90-94): the trimmed string must
match `^[^\s@]+@[^\s@]+\.[^\s@]+$` — exactly one `@`, a non-empty local
part, and a domain part with a dot that has at least one character on each
side, no whitespace anywhere. -/
def isValidEmail (email : String) : Bool :=
  match (email.trim).splitOn "@" with
  | [localPart, domainPart] =>
    let lp := localPart.toList
    let dp := domainPart.toList
    !lp.isEmpty && lp.all emailCharOk && dp.all emailCharOk &&
      ((dp.drop 1).dropLast.contains '.')
  | _ => false

/-- `typeof email !== 'string'` / `!email` guard of `isValidEmail`. -/
def isValidEmailValue : Option JsValue → Bool
  | some (.str s) => if s = "" then false else isValidEmail s
  | _ => false

/-- The options object of `validatePassword` (validation.js lines
98-104) with its defaults. -/
structure PasswordOptions where
  minLength : Nat := 8
  requireUppercase : Bool := true
  requireLowercase : Bool := true
  requireNumbers : Bool := true
  requireSpecialChars : Bool := false
deriving DecidableEq

/-- `[A-Z]`. -/
def isUpperAZ (c : Char) : Bool := 'A' ≤ c && c ≤ 'Z'

/-- `[a-z]`. -/
def isLowerAZ (c : Char) : Bool := 'a' ≤ c && c ≤ 'z'

/-- `[0-9]`. -/
def isDigit09 (c : Char) : Bool := '0' ≤ c && c ≤ '9'

/-- The class `[!@#$%^&*(),.?":\x7b\x7d|<>]` of the special-character
rule (braces written as code points). -/
def specialChars : List Char :=
  ['!', '@', '#', '$', '%', '^', '&', '*', '(', ')', ',', '.', '?', '\"',
   ':', Char.ofNat 123, Char.ofNat 125, '|', '<', '>']

/-- `validatePassword` (validation.js lines 97-131).  Non-string and
empty values fail the `!password || typeof password !== 'string'` guard.
Note that the checks return at the first unmet rule: the result carries a
single message. -/
def validatePassword (password : Option JsValue) (opts : PasswordOptions) :
    ValidationResult :=
  match password with
  | some (.str pw) =>
    if pw = "" then { valid := false, message := "Password is required" }
    else if pw.length < opts.minLength then
      { valid := false,
        message := "Password must be at least " ++ toString opts.minLength ++
          " characters long" }
    else if opts.requireUppercase && !(pw.toList.any isUpperAZ) then
      { valid := false,
        message := "Password must contain at least one uppercase letter" }
    else if opts.requireLowercase && !(pw.toList.any isLowerAZ) then
      { valid := false,
        message := "Password must contain at least one lowercase letter" }
    else if opts.requireNumbers && !(pw.toList.any isDigit09) then
      { valid := false,
        message := "Password must contain at least one number" }
    else if opts.requireSpecialChars &&
        !(pw.toList.any (fun c => specialChars.contains c)) then
      { valid := false,
        message := "Password must contain at least one special character" }
    else { valid := true, message := "Password is valid" }
  | _ => { valid := false, message := "Password is required" }

/-- `validateLength` (validation.js lines 152-168); both bounds use
`!== undefined` guards, so they are `Option Nat` here. -/
def validateLength (value : String) (min max : Option Nat) :
    ValidationResult :=
  let length := value.trim.length
  match min with
  | some m =>
    if length < m then
      { valid := false,
        message := "Must be at least " ++ toString m ++ " characters" }
    else
      match max with
      | some mx =>
        if mx < length then
          { valid := false,
            message := "Must be no more than " ++ toString mx ++ " characters" }
        else { valid := true }
      | none => { valid := true }
  | none =>
    match max with
    | some mx =>
      if mx < length then
        { valid := false,
          message := "Must be no more than " ++ toString mx ++ " characters" }
      else { valid := true }
    | none => { valid := true }

/-! ## The request validator (`middlewares/validate-request.js`)

The rule knobs below are the ones the claims exercise (required, email
format, string length bounds, password composition).  The remaining rule
categories of validate-request.js (url, phone, uuid, objectId,
alphanumeric, numeric bounds, date, enum, array bounds, object, boolean,
custom) follow the identical pattern — a standalone guard appending its
own message to the shared `errors` array — and are orthogonal to every
claim, so they are left out of the rule-descriptor type rather than
stubbed. -/

structure FieldRules where
  required : Bool := false
  email : Bool := false
  minLength : Option Nat := none
  maxLength : Option Nat := none
  password : Bool := false
  requireUppercase : Option Bool := none
  requireLowercase : Option Bool := none
  requireNumbers : Option Bool := none
  requireSpecialChars : Option Bool := none
deriving DecidableEq

/-- A validation schema (`{ required: [...], fields: {...}, email,
password }`); `email`/`password` are the legacy top-level switches. -/
structure Schema where
  required : Option (List String) := none
  fields : List (String × FieldRules) := []
  email : Bool := false
  password : Bool := false

/-- Property lookup on the payload object; `none` is `undefined`. -/
def lookupField (data : List (String × JsValue)) (key : String) :
    Option JsValue :=
  (data.find? (fun p => p.1 == key)).map (fun p => p.2)

/-- The password options built by validate-request.js lines 123-129:
`minLength: fieldRules.minLength || 8`, `requireUppercase:
fieldRules.requireUppercase !== false`, ..., `requireSpecialChars:
fieldRules.requireSpecialChars || false`. -/
def passwordOptionsOf (fieldRules : FieldRules) : PasswordOptions :=
  { minLength := (truthyNat fieldRules.minLength).getD 8,
    requireUppercase := fieldRules.requireUppercase != some false,
    requireLowercase := fieldRules.requireLowercase != some false,
    requireNumbers := fieldRules.requireNumbers != some false,
    requireSpecialChars := fieldRules.requireSpecialChars == some true }

/-- The password-rule block of the field loop (validate-request.js lines
122-134): at most one message is appended per field, carrying
`validatePassword`'s (single) message. -/
def passwordRuleMessages (fieldName : String) (fieldRules : FieldRules)
    (fieldValue : Option JsValue) : List String :=
  if fieldRules.password then
    let passwordValidation :=
      validatePassword fieldValue (passwordOptionsOf fieldRules)
    if !passwordValidation.valid then
      [fieldName ++ ": " ++ passwordValidation.message]
    else []
  else []

/-- The string-validation block of the field loop (lines 79-119,
restricted to the modelled rule knobs): each rule category appends its own
message independently. -/
def stringRuleMessages (fieldName : String) (fieldRules : FieldRules)
    (s : String) : List String :=
  (if fieldRules.email && !(isValidEmail s) then
    [fieldName ++ " must be a valid email address"]
   else []) ++
  (if (truthyNat fieldRules.minLength).isSome ||
      (truthyNat fieldRules.maxLength).isSome then
    let lengthValidation :=
      validateLength s fieldRules.minLength fieldRules.maxLength
    if !lengthValidation.valid then
      [fieldName ++ ": " ++ lengthValidation.message]
    else []
   else [])

/-- `fieldValue === undefined || fieldValue === null` (line 52). -/
def absentOrNull (v : Option JsValue) : Bool :=
  v == none || v == some JsValue.null

/-- `fieldValue === undefined || fieldValue === null ||
fieldValue === ''` (line 57). -/
def jsMissing : Option JsValue → Bool
  | none => true
  | some .null => true
  | some (.str s) => s == ""
  | some _ => false

/-- One iteration of the `Object.keys(schema.fields).forEach` loop (lines
47-183, restricted to the modelled rule knobs): skip absent/null optional
fields; a failed required check short-circuits the field; otherwise every
rule category contributes its messages. -/
def evalField (fieldName : String) (fieldRules : FieldRules)
    (fieldValue : Option JsValue) : List String :=
  if absentOrNull fieldValue && !fieldRules.required then []
  else if fieldRules.required && jsMissing fieldValue then
    [fieldName ++ " is required"]
  else
    (match fieldValue with
     | some (.str s) => stringRuleMessages fieldName fieldRules s
     | _ => []) ++
    passwordRuleMessages fieldName fieldRules fieldValue

/-- The `missing` list of `validateRequired` (validation.js lines
134-149). -/
def requiredMissing (data : List (String × JsValue))
    (requiredFields : List String) : List String :=
  requiredFields.filter (fun field =>
    match lookupField data field with
    | none => true
    | some .null => true
    | some (.str s) => s == "" || s.trim == ""
    | some _ => false)

/-- JavaScript truthiness of a payload value. -/
def jsTruthy : Option JsValue → Bool
  | none => false
  | some .null => false
  | some (.str s) => s != ""
  | some (.num n) => n != 0
  | some (.bool b) => b

/-- The full `errors` array accumulated by `validateRequest` (lines
35-198): the required-list message, then the per-field messages in field
order, then the two legacy checks. -/
def validateRequestErrors (schema : Schema)
    (data : List (String × JsValue)) : List String :=
  let requiredErrors := match schema.required with
    | some requiredFields =>
      let missing := requiredMissing data requiredFields
      if missing.isEmpty then []
      else ["Missing required fields: " ++ String.intercalate ", " missing]
    | none => []
  let fieldErrors :=
    (schema.fields.map
      (fun p => evalField p.1 p.2 (lookupField data p.1))).flatten
  let legacyEmailErrors :=
    if schema.email && jsTruthy (lookupField data "email") then
      if !(isValidEmailValue (lookupField data "email")) then
        ["Invalid email format"]
      else []
    else []
  let legacyPasswordErrors :=
    if schema.password && jsTruthy (lookupField data "password") then
      let passwordValidation :=
        validatePassword (lookupField data "password") {}
      if !passwordValidation.valid then [passwordValidation.message] else []
    else []
  requiredErrors ++ fieldErrors ++ legacyEmailErrors ++ legacyPasswordErrors

/-- Middleware outcome (lines 201-205): pass the request through, or send
one 400 response carrying the full violation list. -/
inductive ValidateOutcome where
  | next
  | fail (message : String) (statusCode : Nat) (errors : List String)
deriving DecidableEq

/-- `validateRequest` (lines 32-207). -/
def validateRequest (schema : Schema) (data : List (String × JsValue)) :
    ValidateOutcome :=
  let errors := validateRequestErrors schema data
  if errors.isEmpty then .next
  else .fail MESSAGES_VALIDATION_ERROR 400 errors

/-! ## Store lemmas

`find?` against a store after a `findOneAndUpdate`-style replacement, under
the `_id`-uniqueness MongoDB guarantees. -/

theorem noDupIds_cons {x : UserRecord} {xs : DB} (h : noDupIds (x :: xs) = true) :
    (∀ r ∈ xs, r.id ≠ x.id) ∧ noDupIds xs = true := by
  simp only [noDupIds, Bool.and_eq_true, List.all_eq_true, bne_iff_ne] at h
  exact ⟨fun r hr => h.1 r hr, h.2⟩

/-- Replacing the first record matched by `pred` with a record of the same
id that still satisfies `pred` makes that record the first match. -/
theorem find?_replaceById_some (db : DB) (pred : UserRecord → Bool)
    (u u' : UserRecord) (hnd : noDupIds db = true)
    (hfind : db.find? pred = some u) (hpred : pred u' = true)
    (hid : u'.id = u.id) :
    (replaceById db u.id u').find? pred = some u' := by
  induction db with
  | nil => simp [List.find?] at hfind
  | cons x xs ih =>
    obtain ⟨hall, hnd'⟩ := noDupIds_cons hnd
    by_cases hx : pred x = true
    · rw [List.find?_cons_of_pos _ hx] at hfind
      injection hfind with hux
      subst hux
      simp only [replaceById, List.map_cons, beq_self_eq_true, if_true]
      exact List.find?_cons_of_pos _ hpred
    · rw [List.find?_cons_of_neg _ hx] at hfind
      have hmem := List.mem_of_find?_eq_some hfind
      have hne : (x.id == u.id) = false :=
        beq_eq_false_iff_ne.mpr (fun h => hall u hmem h.symm)
      simp only [replaceById, List.map_cons, hne, Bool.false_eq_true, if_false]
      rw [List.find?_cons_of_neg _ hx]
      exact ih hnd' hfind

/-- In a store with unique ids, a stored record is the first match of a
lookup by its own id (`findById`). -/
theorem find?_byId_of_mem (db : DB) (u : UserRecord)
    (hnd : noDupIds db = true) (hmem : u ∈ db) :
    db.find? (fun r => r.id == u.id) = some u := by
  induction db with
  | nil => cases hmem
  | cons x xs ih =>
    obtain ⟨hall, hnd'⟩ := noDupIds_cons hnd
    rcases List.mem_cons.mp hmem with hux | hmem2
    · subst hux
      exact List.find?_cons_of_pos _ (beq_self_eq_true u.id)
    · have hne : (x.id == u.id) = false :=
        beq_eq_false_iff_ne.mpr (fun h => hall u hmem2 h.symm)
      rw [List.find?_cons_of_neg _ (by simp [hne])]
      exact ih hnd' hmem2

/-- Replacing the first record matched by `pred` with a record of the same
id that no longer satisfies `pred` leaves no match, provided `pred` only
accepts records carrying that id (as the `{_id, isDeleted: false}` filters
do). -/
theorem find?_replaceById_none (db : DB) (pred : UserRecord → Bool)
    (u u' : UserRecord) (hnd : noDupIds db = true)
    (hfind : db.find? pred = some u) (hpredu : pred u' = false)
    (hid : u'.id = u.id) (honlyid : ∀ r, pred r = true → r.id = u.id) :
    (replaceById db u.id u').find? pred = none := by
  induction db with
  | nil => simp [replaceById]
  | cons x xs ih =>
    obtain ⟨hall, hnd'⟩ := noDupIds_cons hnd
    by_cases hx : pred x = true
    · rw [List.find?_cons_of_pos _ hx] at hfind
      injection hfind with hux
      subst hux
      simp only [replaceById, List.map_cons, beq_self_eq_true, if_true]
      rw [List.find?_cons_of_neg _ (by simp [hpredu])]
      apply List.find?_eq_none.mpr
      intro r hr
      simp only [List.mem_map] at hr
      obtain ⟨r0, hr0, hr0eq⟩ := hr
      have hrid : r0.id ≠ x.id := fun h => hall r0 hr0 h
      have hrr0 : r = r0 := by
        rw [← hr0eq]
        simp [beq_eq_false_iff_ne.mpr hrid]
      subst hrr0
      intro hcontra
      exact hrid (honlyid r hcontra)
    · rw [List.find?_cons_of_neg _ hx] at hfind
      have hmem := List.mem_of_find?_eq_some hfind
      have hne : (x.id == u.id) = false :=
        beq_eq_false_iff_ne.mpr (fun h => hall u hmem h.symm)
      simp only [replaceById, List.map_cons, hne, Bool.false_eq_true,
        if_false]
      rw [List.find?_cons_of_neg _ hx]
      exact ih hnd' hfind

/-! ## Concrete sample inputs

Small concrete stores, hashing/comparison functions and token-verification
outcomes used to instantiate the theorems below. -/

def hashSample : String → String := fun s => "h" ++ s

def cmpSample : String → String → Bool := fun plain hashed => hashed == "h" ++ plain

def samUser : UserRecord :=
  { id := "u1", email := "a@x.com", name := "Ann", password := "hpw",
    accessToken := some "tokOld", refreshToken := some "rOld" }

def samUserLoggedIn : UserRecord :=
  { samUser with accessToken := some "tokNew", refreshToken := some "rNew",
                 lastLogin := some 5 }

def samLoginResult : TokenPairResult :=
  { user := { id := "u1", email := "a@x.com", name := "Ann", createdAt := 0,
              lastLogin := some 5 },
    accessToken := "tokNew", refreshToken := "rNew" }

def samPayload : JwtPayload := { userId := some "u1", email := some "a@x.com" }

def verifySample : String → Except JwtError JwtPayload := fun token =>
  if token == "tokOld" || token == "tokNew" then .ok samPayload
  else .error JwtError.jsonWebTokenError

def samDeletedUser : UserRecord :=
  { id := "u0", email := "a@x.com", name := "Old", password := "hOld",
    isActive := false, isDeleted := true, deletedAt := some 1 }

def samDupKeyError : AppError :=
  { message := "E11000 duplicate key error collection: users index: email_1 dup key",
    name := "MongoServerError", code := some 11000,
    keyPatternFirst := some "email" }

def samDriverError : AppError :=
  { message := "connect ECONNREFUSED 127.0.0.1:27017",
    name := "MongoNetworkError" }

def samEvilPatch : UpdatePatch :=
  { password := some "evil", email := some "evil@x.com",
    name := some "Eve", accessToken := some (some "evilTok"),
    refreshToken := some (some "evilTok"), isActive := some true,
    isDeleted := some true, deletedAt := some (some 9) }

def samDeactivatePatch : UpdatePatch :=
  { isActive := some false, name := some "Eve" }

def samShortNamePatch : UpdatePatch := { name := some "x" }

def samNameShortMsg : String := "Name must be at least 2 characters"

def pwFieldRules : FieldRules := { required := true, password := true }

def pwSchema : Schema := { fields := [("password", pwFieldRules)] }

def pwData : List (String × JsValue) := [("password", JsValue.str "ab")]

/-! ## Claim theorems -/

/-- C4 counterexample: `verifyAccessToken` produces the *same* error value
for a bad-signature failure and for an expiry failure, so the two
conditions are not distinguishable by the caller — against the claim that
verification yields two distinguishable conditions. -/
theorem verifyAccessToken_conditions_indistinguishable :
    verifyAccessToken (.error JwtError.jsonWebTokenError) =
      verifyAccessToken (.error JwtError.tokenExpiredError) := rfl

/-- C4 (amended): access-token verification collapses both failure causes
— bad signature and expiry — into the single generic
`Error('Invalid or expired access token')`, with no name, code or status
distinguishing them; the caller cannot tell which occurred. -/
theorem verifyAccessToken_single_error_condition (e : JwtError) :
    verifyAccessToken (.error e) =
      .error { message := "Invalid or expired access token" } := rfl

/-- C2: on a store holding only a soft-deleted account with email
`a@x.com`, registering again under that email passes the service-level
duplicate check (which filters on the deleted flag), but the insert is
rejected by the unique index that `user-model.js` declares on `email`,
with driver code 11000 — which the boundary error handler turns into a
409 `email already exists` Conflict.  The second registration therefore
does not create a new account, against the claim (and the spec's stated
intent, which the service-level check implements). -/
theorem createUser_reregistration_hits_unique_index :
    List.find? (fun r => r.email == "a@x.com") [samDeletedUser] =
      some samDeletedUser
    ∧ samDeletedUser.isDeleted = true
    ∧ createUser [samDeletedUser] "a@x.com" "Ann" "Passw0rd" hashSample "u2"
        "tokA" "tokR" 7 = .error samDupKeyError
    ∧ samDupKeyError.code = some 11000
    ∧ errorHandler samDupKeyError =
        { statusCode := 409, message := "email already exists" } :=
  ⟨rfl, rfl, rfl, rfl, by decide⟩

/-- C9 counterexample: an unrecognized error (no known name, no driver
code, no attached status code) whose message is a raw driver detail is
answered with status 500 but with that *raw message* in the response body,
not the generic internal message — against the claim that the raw
underlying error message is never included. -/
theorem errorHandler_leaks_raw_message :
    errorHandler samDriverError =
      { statusCode := 500, message := "connect ECONNREFUSED 127.0.0.1:27017" }
    ∧ "connect ECONNREFUSED 127.0.0.1:27017" ≠ MESSAGES_INTERNAL_ERROR := by
  refine ⟨by decide, by decide⟩

/-- C9 (amended): every error reaching the boundary handler with no
recognized shape is answered with status 500 and no error list, but the
response message is the error's own message whenever that is non-empty;
only an empty message falls back to the generic internal message.  (No
stack trace can appear: the response shape carries only the flag, the
message and the optional error list.) -/
theorem errorHandler_unrecognized_to_internal (err : AppError)
    (hcors : includesSubstr err.message "CORS" = false)
    (hval : err.name ≠ "ValidationError")
    (hcast : err.name ≠ "CastError")
    (hdup : err.code ≠ some 11000)
    (hjwt : err.name ≠ "JsonWebTokenError")
    (hexp : err.name ≠ "TokenExpiredError")
    (hsc : truthyNat err.statusCode = none) :
    errorHandler err =
      { statusCode := 500,
        message := if err.message = "" then MESSAGES_INTERNAL_ERROR
                   else err.message } := by
  have h1 : (err.name == "ValidationError") = false :=
    beq_eq_false_iff_ne.mpr hval
  have h2 : (err.name == "CastError") = false :=
    beq_eq_false_iff_ne.mpr hcast
  have h3 : (err.code == some 11000) = false :=
    beq_eq_false_iff_ne.mpr hdup
  have h4 : (err.name == "JsonWebTokenError") = false :=
    beq_eq_false_iff_ne.mpr hjwt
  have h5 : (err.name == "TokenExpiredError") = false :=
    beq_eq_false_iff_ne.mpr hexp
  simp only [errorHandler, hcors, h1, h2, h3, h4, h5, hsc,
    Bool.false_eq_true, if_false]

/-- C9 witness: the amended default-branch theorem applied to the concrete
unrecognized driver error. -/
theorem errorHandler_unrecognized_to_internal_witness :
    errorHandler samDriverError =
      { statusCode := 500,
        message := if samDriverError.message = "" then MESSAGES_INTERNAL_ERROR
                   else samDriverError.message } :=
  errorHandler_unrecognized_to_internal samDriverError (by decide)
    (by decide) (by decide) (by decide) (by decide) (by decide) rfl

/-- C3 counterexample: a password value `"ab"` violates three composition
rules at once (minimum length, uppercase, digit), yet the validator
returns exactly one message for it — the minimum-length one; the
uppercase and digit messages are absent — against the claim that one
message per unmet rule appears. -/
theorem validateRequest_password_single_message :
    validateRequestErrors pwSchema pwData =
      ["password: Password must be at least 8 characters long"]
    ∧ "ab".length < 8
    ∧ ("ab".toList.any isUpperAZ) = false
    ∧ ("ab".toList.any isDigit09) = false
    ∧ ¬ ("password: Password must contain at least one uppercase letter" ∈
          validateRequestErrors pwSchema pwData)
    ∧ ¬ ("password: Password must contain at least one number" ∈
          validateRequestErrors pwSchema pwData) := by
  refine ⟨by decide, by decide, by decide, by decide, by decide, by decide⟩

/-- C3 (amended): the validator is complete across fields and across rule
categories — every field of the schema contributes its own violation
messages, independently of failures in other fields — but the password
composition check contributes at most one message per field: exactly the
message of the *first* unmet password rule (rule order: non-empty,
minimum length, uppercase, lowercase, digit, special character). -/
theorem validateRequest_complete_per_field_password_first_failure :
    (∀ (n1 n2 : String) (r1 r2 : FieldRules)
       (data : List (String × JsValue)),
      validateRequestErrors { fields := [(n1, r1), (n2, r2)] } data =
        evalField n1 r1 (lookupField data n1) ++
          evalField n2 r2 (lookupField data n2))
    ∧ (∀ (fieldName : String) (fieldRules : FieldRules)
         (fieldValue : Option JsValue),
        (passwordRuleMessages fieldName fieldRules fieldValue).length ≤ 1)
    ∧ (∀ (fieldName : String) (fieldRules : FieldRules)
         (fieldValue : Option JsValue),
        fieldRules.password = true →
        (validatePassword fieldValue (passwordOptionsOf fieldRules)).valid
            = false →
        passwordRuleMessages fieldName fieldRules fieldValue =
          [fieldName ++ ": " ++
            (validatePassword fieldValue
              (passwordOptionsOf fieldRules)).message]) := by
  refine ⟨?_, ?_, ?_⟩
  · intro n1 n2 r1 r2 data
    simp [validateRequestErrors]
  · intro fieldName fieldRules fieldValue
    simp only [passwordRuleMessages]
    split
    · split
      · simp
      · simp
    · simp
  · intro fieldName fieldRules fieldValue hp hv
    simp [passwordRuleMessages, hp, hv]

/-- C3 witness: the amended theorem applied to the concrete password field
and the value `"ab"`. -/
theorem validateRequest_password_first_failure_witness :
    passwordRuleMessages "password" pwFieldRules (some (JsValue.str "ab")) =
      ["password" ++ ": " ++
        (validatePassword (some (JsValue.str "ab"))
          (passwordOptionsOf pwFieldRules)).message] :=
  validateRequest_complete_per_field_password_first_failure.2.2 "password"
    pwFieldRules (some (JsValue.str "ab")) rfl (by decide)

/-- C1: single-active-token invariant.  After a successful `loginUser`
stores the fresh access token on the account's record, presenting any
token string different from that fresh token — in particular any
previously issued one — fails the `authenticate` check with the
401 Unauthorized `Invalid or expired token` response, because the check
accepts a presented token only when it equals the stored `accessToken`
byte for byte. -/
theorem single_active_token_invariant
    (db db2 : DB) (email password newAccess newRefresh t : String)
    (cmp : String → String → Bool) (now : Nat) (authHeader : Option String)
    (verify : String → Except JwtError JwtPayload) (p : JwtPayload)
    (res : TokenPairResult) (u : UserRecord)
    (hnd : noDupIds db = true)
    (hfind : db.find? (fun r => r.email == email && !r.isDeleted) = some u)
    (hlogin : loginUser db email password cmp newAccess newRefresh now =
      .ok (res, db2))
    (hhdr : extractBearer authHeader = some t)
    (hver : verify t = .ok p)
    (hpid : tokenUserIdOf p = some u.id)
    (hne : t ≠ newAccess) :
    authenticate db2 authHeader verify = .err MESSAGES_TOKEN_INVALID 401 := by
  have hpu := List.find?_some hfind
  simp only [Bool.and_eq_true, beq_iff_eq, Bool.not_eq_true'] at hpu
  unfold loginUser at hlogin
  rw [hfind] at hlogin
  dsimp only at hlogin
  cases hact : u.isActive with
  | false =>
    rw [hact] at hlogin
    simp at hlogin
  | true =>
    rw [hact] at hlogin
    cases hcmp : cmp password u.password with
    | false =>
      rw [hcmp] at hlogin
      simp at hlogin
    | true =>
      rw [hcmp] at hlogin
      simp only [Bool.not_true, Bool.false_eq_true, if_false,
        Except.ok.injEq, Prod.mk.injEq] at hlogin
      obtain ⟨-, hdb2⟩ := hlogin
      subst hdb2
      have hmem := List.mem_of_find?_eq_some hfind
      have hbyid := find?_byId_of_mem db u hnd hmem
      have hfind2 := find?_replaceById_some db (fun r => r.id == u.id) u
        { u with accessToken := some newAccess,
                 refreshToken := some newRefresh, lastLogin := some now }
        hnd hbyid (by simp) rfl
      rw [hact, hpu.2] at hfind2
      have htok : ((some newAccess : Option String) != some t) = true := by
        simp only [bne_iff_ne, ne_eq, Option.some.injEq]
        exact fun h => hne (h.symm)
      simp only [authenticate, hhdr, hver, verifyAccessToken, hpid, hfind2,
        bne_self_eq_false, Bool.false_eq_true, if_false, hpu.2, hact,
        Bool.not_true, htok, if_true]

/-- C1 witness: the invariant at a concrete one-account store — after the
login that stores `tokNew`, presenting the previously issued `tokOld`
fails with 401 `Invalid or expired token`. -/
theorem single_active_token_invariant_witness :
    authenticate [samUserLoggedIn] (some "Bearer tokOld") verifySample =
      .err MESSAGES_TOKEN_INVALID 401 :=
  single_active_token_invariant [samUser] [samUserLoggedIn] "a@x.com" "pw"
    "tokNew" "rNew" "tokOld" cmpSample 5 (some "Bearer tokOld") verifySample
    samPayload samLoginResult samUser (by decide) rfl rfl (by decide) rfl
    rfl (by decide)

/-- C7: anti-enumeration at login.  A login with an email matching no
non-deleted account and a login with an existing active account's email
but a wrong password produce the *same* failure — 401 with
`Invalid email or password` — so the two cases are indistinguishable to
the caller. -/
theorem login_enumeration_indistinguishable
    (db : DB) (emailAbsent emailActive pw1 pw2 newAccess newRefresh : String)
    (cmp : String → String → Bool) (now : Nat) (u : UserRecord)
    (habs : db.find? (fun r => r.email == emailAbsent && !r.isDeleted) = none)
    (hfind : db.find? (fun r => r.email == emailActive && !r.isDeleted) =
      some u)
    (hact : u.isActive = true)
    (hbad : cmp pw2 u.password = false) :
    loginUser db emailAbsent pw1 cmp newAccess newRefresh now =
      loginUser db emailActive pw2 cmp newAccess newRefresh now
    ∧ loginUser db emailAbsent pw1 cmp newAccess newRefresh now =
      .error { message := MESSAGES_INVALID_CREDENTIALS,
               statusCode := some 401 } := by
  have h1 : loginUser db emailAbsent pw1 cmp newAccess newRefresh now =
      .error { message := MESSAGES_INVALID_CREDENTIALS,
               statusCode := some 401 } := by
    unfold loginUser
    rw [habs]
  have h2 : loginUser db emailActive pw2 cmp newAccess newRefresh now =
      .error { message := MESSAGES_INVALID_CREDENTIALS,
               statusCode := some 401 } := by
    unfold loginUser
    rw [hfind]
    dsimp only
    rw [hact, hbad]
    simp
  exact ⟨h1.trans h2.symm, h1⟩

/-- C7 witness: the anti-enumeration equality at a concrete store — an
unknown email and a wrong password against `samUser` yield the identical
401 error. -/
theorem login_enumeration_indistinguishable_witness :
    loginUser [samUser] "nobody@x.com" "pw" cmpSample "tokNew" "rNew" 5 =
      loginUser [samUser] "a@x.com" "wrong" cmpSample "tokNew" "rNew" 5
    ∧ loginUser [samUser] "nobody@x.com" "pw" cmpSample "tokNew" "rNew" 5 =
      .error { message := MESSAGES_INVALID_CREDENTIALS,
               statusCode := some 401 } :=
  login_enumeration_indistinguishable [samUser] "nobody@x.com" "a@x.com"
    "pw" "wrong" "tokNew" "rNew" cmpSample 5 samUser rfl rfl rfl (by decide)

/-- Writing the same record by id twice is the same as writing it once. -/
theorem replaceById_idem (db : DB) (i : String) (v : UserRecord)
    (hv : v.id = i) :
    replaceById (replaceById db i v) i v = replaceById db i v := by
  unfold replaceById
  rw [List.map_map]
  apply List.map_congr_left
  intro a _
  by_cases h : (a.id == i) = true
  · simp [Function.comp, h, hv]
  · simp [Function.comp, h]

/-- C6: `updateUser` removes the password, email, access-token,
refresh-token, deleted-flag and deletion-timestamp keys from any patch
before applying it, so those six stored fields are unchanged whatever the
patch contains; it sets the update-tracking flag and last-update
timestamp; when the surviving patch passes the schema's update validators
it returns the mutated record on success and the 404 `User not found`
error when no non-deleted record matches the id; a surviving value that
violates a schema validator aborts the operation with a mongoose
`ValidationError` instead (no record is touched, so the six fields are
again unchanged). -/
theorem updateProfile_frame
    (db : DB) (userId : String) (updateData : UpdatePatch) (now : Nat)
    (u : UserRecord)
    (hfind : db.find? (fun r => r.id == userId && !r.isDeleted) = some u) :
    (updateValidatorError
        (runSetters (addUpdateTracking (stripSensitive updateData) now)).name
          = none →
      updateUser db userId updateData now =
        .ok (applyPatch u
               (runSetters (addUpdateTracking (stripSensitive updateData) now)),
             replaceById db u.id
               (applyPatch u
                 (runSetters (addUpdateTracking (stripSensitive updateData) now)))))
    ∧ (applyPatch u
        (runSetters (addUpdateTracking (stripSensitive updateData) now))).password
        = u.password
    ∧ (applyPatch u
        (runSetters (addUpdateTracking (stripSensitive updateData) now))).email
        = u.email
    ∧ (applyPatch u
        (runSetters (addUpdateTracking (stripSensitive updateData) now))).accessToken
        = u.accessToken
    ∧ (applyPatch u
        (runSetters (addUpdateTracking (stripSensitive updateData) now))).refreshToken
        = u.refreshToken
    ∧ (applyPatch u
        (runSetters (addUpdateTracking (stripSensitive updateData) now))).isDeleted
        = u.isDeleted
    ∧ (applyPatch u
        (runSetters (addUpdateTracking (stripSensitive updateData) now))).deletedAt
        = u.deletedAt
    ∧ (applyPatch u
        (runSetters (addUpdateTracking (stripSensitive updateData) now))).isUpdated
        = true
    ∧ (applyPatch u
        (runSetters (addUpdateTracking (stripSensitive updateData) now))).lastUpdatedAt
        = some now
    ∧ (∀ db0 : DB,
        db0.find? (fun r => r.id == userId && !r.isDeleted) = none →
        updateValidatorError
          (runSetters (addUpdateTracking (stripSensitive updateData) now)).name
            = none →
        updateUser db0 userId updateData now =
          .error { message := MESSAGES_USER_NOT_FOUND,
                   statusCode := some 404 })
    ∧ (∀ msg : String,
        updateValidatorError
          (runSetters (addUpdateTracking (stripSensitive updateData) now)).name
            = some msg →
        updateUser db userId updateData now =
          .error { message := "User validation failed: name: " ++ msg,
                   name := "ValidationError",
                   validationMessages := [msg] }) := by
  refine ⟨?_, rfl, rfl, rfl, rfl, rfl, rfl, rfl, rfl, ?_, ?_⟩
  · intro hv
    unfold updateUser
    rw [hv, hfind]
  · intro db0 h0 hv
    unfold updateUser
    rw [hv, h0]
  · intro msg hv
    unfold updateUser
    rw [hv]

/-- C6 witness: the frame theorem applied at a one-account store, with a
patch that tries to overwrite every sensitive field (the six fields are
unchanged) and a patch whose name violates the minlength validator (the
operation aborts with the mongoose `ValidationError`). -/
theorem updateProfile_frame_witness :
    (applyPatch samUser
      (runSetters (addUpdateTracking (stripSensitive samEvilPatch) 6))).password =
      samUser.password
    ∧ (applyPatch samUser
        (runSetters (addUpdateTracking (stripSensitive samEvilPatch) 6))).email =
      samUser.email
    ∧ (applyPatch samUser
        (runSetters (addUpdateTracking (stripSensitive samEvilPatch) 6))).isDeleted =
      samUser.isDeleted
    ∧ updateUser [samUser] "u1" samShortNamePatch 6 =
        .error { message := "User validation failed: name: " ++ samNameShortMsg,
                 name := "ValidationError",
                 validationMessages := [samNameShortMsg] } :=
  ⟨(updateProfile_frame [samUser] "u1" samEvilPatch 6 samUser rfl).2.1,
   (updateProfile_frame [samUser] "u1" samEvilPatch 6 samUser rfl).2.2.1,
   (updateProfile_frame [samUser] "u1" samEvilPatch 6 samUser rfl).2.2.2.2.2.1,
   (updateProfile_frame [samUser] "u1" samShortNamePatch 6 samUser
       rfl).2.2.2.2.2.2.2.2.2.2 samNameShortMsg (by decide)⟩

/-- C5: `deleteUser` is single-use.  The first call on a non-deleted
record succeeds, setting the deleted flag and deletion timestamp, clearing
both stored tokens and deactivating the record; a second call on the
now-deleted account fails with the 404 `User not found` error; and after
deletion, presenting the account's last-issued (still verifying) token to
`authenticate` fails with 401. -/
theorem deleteAccount_single_use
    (db : DB) (userId : String) (now now2 : Nat) (u : UserRecord)
    (authHeader : Option String) (t : String)
    (verify : String → Except JwtError JwtPayload) (p : JwtPayload)
    (hnd : noDupIds db = true)
    (hfind : db.find? (fun r => r.id == userId && !r.isDeleted) = some u)
    (hhdr : extractBearer authHeader = some t)
    (hver : verify t = .ok p)
    (hpid : tokenUserIdOf p = some u.id) :
    deleteUser db userId now =
      .ok ({ id := u.id, email := u.email, name := u.name,
             deletedAt := some now },
           replaceById db u.id (softDeleteRecord u now))
    ∧ (softDeleteRecord u now).isDeleted = true
    ∧ (softDeleteRecord u now).deletedAt = some now
    ∧ (softDeleteRecord u now).accessToken = none
    ∧ (softDeleteRecord u now).refreshToken = none
    ∧ (softDeleteRecord u now).isActive = false
    ∧ deleteUser (replaceById db u.id (softDeleteRecord u now)) userId now2 =
        .error { message := MESSAGES_USER_NOT_FOUND, statusCode := some 404 }
    ∧ authenticate (replaceById db u.id (softDeleteRecord u now)) authHeader
        verify = .err "User account has been deleted" 401 := by
  have hpu := List.find?_some hfind
  simp only [Bool.and_eq_true, beq_iff_eq, Bool.not_eq_true'] at hpu
  have hnone := find?_replaceById_none db
    (fun r => r.id == userId && !r.isDeleted) u (softDeleteRecord u now) hnd
    hfind (by simp [softDeleteRecord]) rfl
    (fun r hr => by
      simp only [Bool.and_eq_true, beq_iff_eq] at hr
      exact hr.1.trans hpu.1.symm)
  have hmem := List.mem_of_find?_eq_some hfind
  have hbyid := find?_byId_of_mem db u hnd hmem
  have hfind2 := find?_replaceById_some db (fun r => r.id == u.id) u
    (softDeleteRecord u now) hnd hbyid (by simp [softDeleteRecord]) rfl
  refine ⟨?_, rfl, rfl, rfl, rfl, rfl, ?_, ?_⟩
  · unfold deleteUser
    rw [hfind]
    rfl
  · unfold deleteUser
    rw [hnone]
  · simp only [authenticate, hhdr, hver, verifyAccessToken, hpid, hfind2]
    simp [softDeleteRecord]

/-- C5 witness: the single-use theorem at a concrete one-account store —
the second delete is 404 and the old token is rejected after deletion. -/
theorem deleteAccount_single_use_witness :
    deleteUser (replaceById [samUser] samUser.id (softDeleteRecord samUser 3))
        "u1" 4 =
      .error { message := MESSAGES_USER_NOT_FOUND, statusCode := some 404 }
    ∧ authenticate
        (replaceById [samUser] samUser.id (softDeleteRecord samUser 3))
        (some "Bearer tokOld") verifySample =
      .err "User account has been deleted" 401 :=
  ⟨(deleteAccount_single_use [samUser] "u1" 3 4 samUser
      (some "Bearer tokOld") "tokOld" verifySample samPayload (by decide) rfl
      (by decide) rfl rfl).2.2.2.2.2.2.1,
   (deleteAccount_single_use [samUser] "u1" 3 4 samUser
      (some "Bearer tokOld") "tokOld" verifySample samPayload (by decide) rfl
      (by decide) rfl rfl).2.2.2.2.2.2.2⟩

/-- C8: `logoutUser` clears both stored tokens of a non-deleted record and
succeeds; calling it again on the same still-non-deleted record succeeds
as a no-op write (the store is unchanged); for an id whose record is
absent or already soft-deleted it fails with the 404 `User not found`
error. -/
theorem logout_semantics
    (db : DB) (userId : String) (u : UserRecord)
    (hnd : noDupIds db = true)
    (hfind : db.find? (fun r => r.id == userId && !r.isDeleted) = some u) :
    logoutUser db userId =
      .ok (replaceById db u.id
        { u with accessToken := none, refreshToken := none })
    ∧ logoutUser (replaceById db u.id
        { u with accessToken := none, refreshToken := none }) userId =
      .ok (replaceById db u.id
        { u with accessToken := none, refreshToken := none })
    ∧ ∀ db0 : DB,
        db0.find? (fun r => r.id == userId && !r.isDeleted) = none →
        logoutUser db0 userId =
          .error { message := MESSAGES_USER_NOT_FOUND,
                   statusCode := some 404 } := by
  have hpu := List.find?_some hfind
  have hfind2 := find?_replaceById_some db
    (fun r => r.id == userId && !r.isDeleted) u
    { u with accessToken := none, refreshToken := none } hnd hfind
    (by exact hpu) rfl
  refine ⟨?_, ?_, ?_⟩
  · unfold logoutUser
    rw [hfind]
  · unfold logoutUser
    rw [hfind2]
    exact congrArg Except.ok (replaceById_idem db u.id
      { u with accessToken := none, refreshToken := none } rfl)
  · intro db0 h0
    unfold logoutUser
    rw [h0]

/-- C8 witness: the logout theorem at a concrete one-account store — the
repeated logout on the already-cleared record still succeeds with the
unchanged store. -/
theorem logout_semantics_witness :
    logoutUser (replaceById [samUser] samUser.id
        { samUser with accessToken := none, refreshToken := none }) "u1" =
      .ok (replaceById [samUser] samUser.id
        { samUser with accessToken := none, refreshToken := none }) :=
  (logout_semantics [samUser] "u1" samUser (by decide) rfl).2.1

/-- C10: the strip-list of `updateUser` is exactly the six sensitive keys
— the active flag is not among them — so a patch with `isActive = false`
that passes the schema's update validators is written through: the update
succeeds, the record becomes inactive (and non-stripped keys such as the
name are applied, through the trim setter), after which a login with that
account's email fails with the 403 `User account is deactivated`
error. -/
theorem update_deactivates_then_login_forbidden
    (db : DB) (userId : String) (patch : UpdatePatch) (now now2 : Nat)
    (u : UserRecord) (password newAccess newRefresh : String)
    (cmp : String → String → Bool)
    (hnd : noDupIds db = true)
    (hfind : db.find? (fun r => r.id == userId && !r.isDeleted) = some u)
    (hemail : db.find? (fun r => r.email == u.email && !r.isDeleted) = some u)
    (hact : u.isActive = true)
    (hpatch : patch.isActive = some false)
    (hvalid : updateValidatorError
      (runSetters (addUpdateTracking (stripSensitive patch) now)).name = none) :
    updateUser db userId patch now =
      .ok (applyPatch u (runSetters (addUpdateTracking (stripSensitive patch) now)),
           replaceById db u.id
             (applyPatch u (runSetters (addUpdateTracking (stripSensitive patch) now))))
    ∧ (applyPatch u (runSetters (addUpdateTracking (stripSensitive patch) now))).isActive
        = false
    ∧ (applyPatch u (runSetters (addUpdateTracking (stripSensitive patch) now))).name
        = (patch.name.map jsTrim).getD u.name
    ∧ loginUser
        (replaceById db u.id
          (applyPatch u (runSetters (addUpdateTracking (stripSensitive patch) now))))
        u.email password cmp newAccess newRefresh now2 =
      .error { message := "User account is deactivated",
               statusCode := some 403 } := by
  have hfind2 := find?_replaceById_some db
    (fun r => r.email == u.email && !r.isDeleted) u
    (applyPatch u (runSetters (addUpdateTracking (stripSensitive patch) now)))
    hnd hemail
    (by
      have hpe := List.find?_some hemail
      simp only [Bool.and_eq_true] at hpe
      simp [applyPatch, addUpdateTracking, stripSensitive, runSetters,
        hpe.2]) rfl
  refine ⟨?_, ?_, rfl, ?_⟩
  · unfold updateUser
    rw [hvalid, hfind]
  · simp [applyPatch, addUpdateTracking, stripSensitive, runSetters, hpatch]
  · unfold loginUser
    rw [hfind2]
    dsimp only
    simp [applyPatch, addUpdateTracking, stripSensitive, runSetters, hpatch]

/-- C10 witness: the write-through theorem at a concrete one-account store
and the validator-passing patch `{isActive: false, name: "Eve"}`. -/
theorem update_deactivates_then_login_forbidden_witness :
    (applyPatch samUser
      (runSetters (addUpdateTracking (stripSensitive samDeactivatePatch) 6))).isActive =
      false
    ∧ loginUser
        (replaceById [samUser] samUser.id
          (applyPatch samUser
            (runSetters (addUpdateTracking (stripSensitive samDeactivatePatch) 6))))
        samUser.email "pw" cmpSample "tokNew" "rNew" 7 =
      .error { message := "User account is deactivated",
               statusCode := some 403 } :=
  ⟨(update_deactivates_then_login_forbidden [samUser] "u1"
      samDeactivatePatch 6 7 samUser "pw" "tokNew" "rNew" cmpSample
      (by decide) rfl rfl rfl rfl (by decide)).2.1,
   (update_deactivates_then_login_forbidden [samUser] "u1"
      samDeactivatePatch 6 7 samUser "pw" "tokNew" "rNew" cmpSample
      (by decide) rfl rfl rfl rfl (by decide)).2.2.2⟩

end AuthScale
